import Mathlib

/-!
Shallow embedding of `src/lambda/mailbox-keepalive-monitor.py`, the single
source file of the mailbox-keepalive-monitor lambda, together with proofs
about the claims of its specification.

The Python handler reads three environment variables, parses the threshold,
reads one item from a DynamoDB table, parses its `timestamp` field with
`datetime.strptime(_, '%Y%m%d%H%M%S')`, attaches `pytz.timezone('US/Central')`
with `replace(tzinfo=...)`, compares the elapsed time against the threshold,
and conditionally publishes one SNS message.  `boto3` calls are modelled by
behaviour parameters (the store read result and the publish outcome), the
clock by the current UTC instant in seconds plus the US/Central UTC offset
at that instant, and exceptions by an explicit result type.
-/

namespace Mailbox

/-- One digit character to its value, as matched by `\d` in the CPython
`_strptime` regular expressions (and by `int()` digit parsing). -/
def digitVal (c : Char) : Option Nat :=
  if c.isDigit then some (c.toNat - 48) else none

/-! ### Python `int()` on strings

`int(threshold_hours_env)` (line 49 of the source): strips ASCII whitespace
on both ends, accepts one optional sign, then a non-empty digit run in which
single underscores may separate digits.  Anything else raises `ValueError`.
The model covers ASCII strings, which is what the spec's examples use. -/

def isPySpace (c : Char) : Bool :=
  c = ' ' || c = '\t' || c = '\n' || c = '\r' || c.toNat = 11 || c.toNat = 12

/-- Digit run after its first digit: digits, with single underscores allowed
between two digits (`1_000`), never doubled or trailing. -/
def pyDigitsRest (acc : Nat) : List Char → Option Nat
  | [] => some acc
  | '_' :: c :: cs =>
    match digitVal c with
    | some d => pyDigitsRest (10 * acc + d) cs
    | none => none
  | '_' :: [] => none
  | c :: cs =>
    match digitVal c with
    | some d => pyDigitsRest (10 * acc + d) cs
    | none => none

/-- A non-empty underscore-separated digit run, as accepted by `int()`. -/
def pyDigits : List Char → Option Nat
  | [] => none
  | c :: cs =>
    match digitVal c with
    | some d => pyDigitsRest d cs
    | none => none

/-- Python `int(s)` for an ASCII string `s`: `some` value, or `none` where
Python raises `ValueError`. -/
def pyInt (s : String) : Option Int :=
  let cs := ((s.toList.dropWhile isPySpace).reverse.dropWhile isPySpace).reverse
  match cs with
  | '+' :: rest => (pyDigits rest).map (fun n => (n : Int))
  | '-' :: rest => (pyDigits rest).map (fun n => -(n : Int))
  | rest => (pyDigits rest).map (fun n => (n : Int))

/-! ### `datetime.strptime(timestamp_str, '%Y%m%d%H%M%S')`

CPython compiles the format to the anchored regular expression
`(?P<Y>\d\d\d\d)(?P<m>1[0-2]|0[1-9]|[1-9])(?P<d>3[01]|[12]\d|0[1-9]|[1-9])`
`(?P<H>2[0-3]|[0-1]\d|\d)(?P<M>[0-5]\d|\d)(?P<S>6[0-1]|[0-5]\d|\d)` and
requires it to consume the whole string; the `re` engine tries the
alternatives of each group left to right (so each field prefers two digits
and backtracks to one), and the first full match wins.  The matched values
are then passed to the `datetime` constructor, which raises `ValueError`
unless the date is a real proleptic-Gregorian date with year 1..9999 and the
seconds are at most 59. -/

/-- A naive `datetime.datetime` as produced by `strptime`. -/
structure Datetime where
  year : Nat
  month : Nat
  day : Nat
  hour : Nat
  minute : Nat
  second : Nat
deriving DecidableEq

/-- A field of the format: which two-digit values its two-digit alternatives
accept, and which single digits its one-digit alternative accepts. -/
structure FieldSpec where
  ok2 : Nat → Bool
  ok1 : Nat → Bool

/-- `%m`: `1[0-2]|0[1-9]` then `[1-9]`. -/
def monthField : FieldSpec := ⟨fun v => 1 ≤ v && v ≤ 12, fun v => 1 ≤ v && v ≤ 9⟩

/-- `%d`: `3[01]|[12]\d|0[1-9]` then `[1-9]`. -/
def dayField : FieldSpec := ⟨fun v => 1 ≤ v && v ≤ 31, fun v => 1 ≤ v && v ≤ 9⟩

/-- `%H`: `2[0-3]|[0-1]\d` then `\d`. -/
def hourField : FieldSpec := ⟨fun v => v ≤ 23, fun v => v ≤ 9⟩

/-- `%M`: `[0-5]\d` then `\d`. -/
def minuteField : FieldSpec := ⟨fun v => v ≤ 59, fun v => v ≤ 9⟩

/-- `%S`: `6[0-1]|[0-5]\d` then `\d`. -/
def secondField : FieldSpec := ⟨fun v => v ≤ 61, fun v => v ≤ 9⟩

/-- Match the fields against the remaining characters with the `re` engine's
backtracking: each field first tries to take two digits (its two-digit
alternatives come first in the pattern) and falls back to one digit if the
rest of the match fails; the whole input must be consumed. -/
def matchFields : List FieldSpec → List Char → Option (List Nat)
  | [], [] => some []
  | [], _ :: _ => none
  | f :: fs, cs =>
    let two : Option (List Nat) :=
      match cs with
      | c1 :: c2 :: rest =>
        match digitVal c1, digitVal c2 with
        | some d1, some d2 =>
          let v := 10 * d1 + d2
          if f.ok2 v then (matchFields fs rest).map (fun vs => v :: vs) else none
        | _, _ => none
      | _ => none
    match two with
    | some r => some r
    | none =>
      match cs with
      | c1 :: rest =>
        match digitVal c1 with
        | some d1 => if f.ok1 d1 then (matchFields fs rest).map (fun vs => d1 :: vs) else none
        | none => none
      | [] => none

/-- Gregorian leap year, as in Python's `calendar.isleap` / `datetime`. -/
def isLeap (y : Nat) : Bool := (y % 4 = 0 && y % 100 ≠ 0) || y % 400 = 0

/-- Length of a month, as validated by the `datetime` constructor. -/
def daysInMonth (y m : Nat) : Nat :=
  if m = 2 then (if isLeap y then 29 else 28)
  else if m = 4 || m = 6 || m = 9 || m = 11 then 30
  else 31

/-- The `datetime.datetime` constructor's range checks (year 1..9999, real
calendar date, hour 0..23, minute 0..59, second 0..59); `strptime` lets a
seconds value of 60 or 61 through the regular expression but the constructor
then rejects it. -/
def datetimeCtorOk (t : Datetime) : Bool :=
  1 ≤ t.year && t.year ≤ 9999 && 1 ≤ t.month && t.month ≤ 12 &&
  1 ≤ t.day && t.day ≤ daysInMonth t.year t.month &&
  t.hour ≤ 23 && t.minute ≤ 59 && t.second ≤ 59

/-- `datetime.datetime.strptime(s, '%Y%m%d%H%M%S')` (line 63 of the source):
`some` naive datetime, or `none` where Python raises `ValueError`. -/
def strptime14 (s : String) : Option Datetime :=
  match s.toList with
  | y1 :: y2 :: y3 :: y4 :: rest =>
    match digitVal y1, digitVal y2, digitVal y3, digitVal y4 with
    | some a, some b, some c, some d =>
      match matchFields [monthField, dayField, hourField, minuteField, secondField] rest with
      | some [m, dd, hh, mi, ss] =>
        let dt : Datetime := ⟨1000 * a + 100 * b + 10 * c + d, m, dd, hh, mi, ss⟩
        if datetimeCtorOk dt then some dt else none
      | _ => none
    | _, _, _, _ => none
  | _ => none

/-! ### Datetime arithmetic -/

/-- Cumulative days before month `m` in year `y` (Python `_days_before_month`). -/
def daysBeforeMonth (y m : Nat) : Nat :=
  ([0, 31, 59, 90, 120, 151, 181, 212, 243, 273, 304, 334].getD (m - 1) 0) +
    (if 2 < m && isLeap y then 1 else 0)

/-- `date.toordinal()`: day number of the proleptic Gregorian calendar, with
0001-01-01 as day 1. -/
def toOrdinal (y m d : Nat) : Nat :=
  365 * (y - 1) + (y - 1) / 4 - (y - 1) / 100 + (y - 1) / 400 + daysBeforeMonth y m + d

/-- A naive datetime as a second count on the proleptic Gregorian axis;
differences of these are exactly Python's naive-datetime differences. -/
def naiveToSec (t : Datetime) : Int :=
  (toOrdinal t.year t.month t.day : Int) * 86400 +
    t.hour * 3600 + t.minute * 60 + t.second

/-- An aware `datetime.datetime`: its civil (naive) seconds and the
`utcoffset()` its `tzinfo` reports, in seconds. -/
structure AwareDatetime where
  naive : Int
  utcoffset : Int
deriving DecidableEq

/-- Python subtraction of two aware datetimes, in seconds: each operand is
shifted to UTC by its own `utcoffset()` first. -/
def awareSub (a b : AwareDatetime) : Int :=
  (a.naive - a.utcoffset) - (b.naive - b.utcoffset)

/-- `pytz.timezone('US/Central')` attached with `replace(tzinfo=...)` (line 64
of the source), without `localize`: the `DstTzInfo` object then reports its
default offset, the zone's first tzdata entry, which is local mean time,
UTC-5:51 (-21060 seconds) — not CST (-6:00) or CDT (-5:00). -/
def pytzCentralReplaceOffset : Int := -21060

/-- `datetime.datetime.now(tz)` for a pytz zone (line 67 of the source): via
`fromutc` it is DST-correct, carrying the zone's true UTC offset at the
current instant.  `nowUtc` is the current UTC instant in seconds on the same
axis as `naiveToSec`; `off` is the zone's UTC offset at that instant. -/
def datetimeNowTz (nowUtc off : Int) : AwareDatetime :=
  ⟨nowUtc + off, off⟩

/-- `datetime.timedelta(hours=h)` in seconds. -/
def timedeltaHours (h : Int) : Int := h * 3600

/-! ### The handler -/

/-- The process environment: `os.environ.get` for each of the three
variables, `none` when the variable is absent. -/
structure Env where
  ddbTableName : Option String
  snsArn : Option String
  thresholdHours : Option String
deriving DecidableEq

/-- Python truthiness of `os.environ.get(...)`: `None` and the empty string
are falsy, every other string is truthy (line 44 of the source). -/
def truthy : Option String → Bool
  | none => false
  | some s => s != ""

/-- The DynamoDB item at key `{'id': 'open'}`; `timestamp` is `some` exactly
when the item has a `timestamp` attribute. -/
structure Item where
  timestamp : Option String
deriving DecidableEq

/-- Behaviour of `table.get_item(Key={'id': 'open'})`: either it raises
`botocore.exceptions.ClientError`, or it returns a response whose `Item`
entry is present (`some`) or absent (`none`). -/
inductive GetItemResult where
  | clientError
  | ok (item : Option Item)
deriving DecidableEq

/-- Behaviour of `sns.publish(...)` when it is invoked: success, or a
service-level `botocore.exceptions.ClientError`. -/
inductive PublishResult where
  | ok
  | clientError
deriving DecidableEq

/-- One published SNS message. -/
structure SnsMessage where
  topicArn : String
  message : String
  subject : String
deriving DecidableEq

/-- Observable side effects of one invocation: how many `get_item` calls were
attempted, which messages were actually delivered to SNS, and how many
`print(f"Error: {e}")` diagnostics ran. -/
structure Effects where
  storeReads : Nat
  published : List SnsMessage
  errorLogs : Nat
deriving DecidableEq

/-- How one invocation ends: a returned outcome string, or an uncaught
`ValueError` escaping `lambda_handler` (only `ClientError` is caught). -/
inductive PyResult where
  | returned (s : String)
  | raisedValueError
deriving DecidableEq

/-- Line 45 of the source. -/
def envVarsErrorMsg : String :=
  "Error: Environment variables DDB_TABLE_NAME, SNS_ARN, and THRESHOLD_HOURS must be set."

/-- Line 51 of the source. -/
def thresholdErrorMsg : String :=
  "Error: Invalid value for THRESHOLD_HOURS. It must be an integer."

/-- Line 72 of the source; Python's `str` of an `int` and Lean's `toString`
of an `Int` agree on sign and digits. -/
def alertBody (thresholdHours : Int) : String :=
  "The timestamp in DynamoDB is over " ++ toString thresholdHours ++ " hours old."

/-- `lambda_handler` of `src/lambda/mailbox-keepalive-monitor.py`, lines
22-82, as a function of the environment, the behaviour of the two AWS calls,
and the clock.  The `try` block spans the `get_item` call, the `strptime`
parse and the `sns.publish` call; its single `except ClientError` handler
prints the error and returns "Error occurred", so a `ClientError` from
either AWS call is caught while a `ValueError` from `strptime` escapes. -/
def lambda_handler (env : Env) (store : GetItemResult) (pub : PublishResult)
    (nowUtc : Int) (centralOffsetNow : Int) : PyResult × Effects :=
  let ddb_table_name := env.ddbTableName
  let sns_arn := env.snsArn
  let threshold_hours_env := env.thresholdHours
  if !truthy ddb_table_name || !truthy sns_arn || !truthy threshold_hours_env then
    (.returned envVarsErrorMsg, ⟨0, [], 0⟩)
  else
    match pyInt (threshold_hours_env.getD "") with
    | none => (.returned thresholdErrorMsg, ⟨0, [], 0⟩)
    | some threshold_hours =>
      match store with
      | .clientError => (.returned "Error occurred", ⟨1, [], 1⟩)
      | .ok optItem =>
        match optItem with
        | none => (.returned "No timestamp found in DynamoDB", ⟨1, [], 0⟩)
        | some item =>
          match item.timestamp with
          | none => (.returned "No timestamp found in DynamoDB", ⟨1, [], 0⟩)
          | some timestamp_str =>
            match strptime14 timestamp_str with
            | none => (.raisedValueError, ⟨1, [], 0⟩)
            | some dt =>
              let timestamp : AwareDatetime := ⟨naiveToSec dt, pytzCentralReplaceOffset⟩
              let now := datetimeNowTz nowUtc centralOffsetNow
              if awareSub now timestamp > timedeltaHours threshold_hours then
                match pub with
                | .ok =>
                  (.returned "SNS notification sent",
                   ⟨1, [⟨sns_arn.getD "", alertBody threshold_hours, "Mailbox State Alert"⟩], 0⟩)
                | .clientError => (.returned "Error occurred", ⟨1, [], 1⟩)
              else
                (.returned "Timestamp is within the threshold", ⟨1, [], 0⟩)

/-! ### Claims -/

/-- C3: if any of `DDB_TABLE_NAME`, `SNS_ARN`, `THRESHOLD_HOURS` is absent
from the environment, the handler returns the configuration-error message
naming the required variables, attempts no store read and publishes no
notification. -/
theorem claim_C3 (env : Env) (store : GetItemResult) (pub : PublishResult)
    (nowUtc off : Int)
    (h : env.ddbTableName = none ∨ env.snsArn = none ∨ env.thresholdHours = none) :
    lambda_handler env store pub nowUtc off = (.returned envVarsErrorMsg, ⟨0, [], 0⟩) := by
  rcases h with h | h | h <;> simp [lambda_handler, h, truthy]

theorem claim_C3_witness :
    lambda_handler ⟨none, some "alerts", some "2"⟩ (.ok none) .ok 0 0 =
      (.returned envVarsErrorMsg, ⟨0, [], 0⟩) :=
  claim_C3 ⟨none, some "alerts", some "2"⟩ (.ok none) .ok 0 0 (Or.inl rfl)

/-- C10: an environment variable set to the empty string is falsy in the
handler's `if not ...` test, so it behaves exactly as an absent variable:
configuration-error outcome, no store read, no publish. -/
theorem claim_C10 (env : Env) (store : GetItemResult) (pub : PublishResult)
    (nowUtc off : Int)
    (h : env.ddbTableName = some "" ∨ env.snsArn = some "" ∨ env.thresholdHours = some "") :
    lambda_handler env store pub nowUtc off = (.returned envVarsErrorMsg, ⟨0, [], 0⟩) := by
  rcases h with h | h | h <;> simp [lambda_handler, h, truthy]

theorem claim_C10_witness :
    lambda_handler ⟨some "", some "alerts", some "2"⟩ (.ok none) .ok 0 0 =
      (.returned envVarsErrorMsg, ⟨0, [], 0⟩) :=
  claim_C10 ⟨some "", some "alerts", some "2"⟩ (.ok none) .ok 0 0 (Or.inl rfl)

/-- C9: a present, non-empty `THRESHOLD_HOURS` that `int()` cannot parse
makes the handler return the threshold-parse-error outcome — which names
`THRESHOLD_HOURS` as the invalid value — with no store read and no publish.
(An empty string never reaches the parse: it is caught by the
configuration-error path, see C10.) -/
theorem claim_C9 (table arn t : String) (store : GetItemResult) (pub : PublishResult)
    (nowUtc off : Int)
    (hT : table ≠ "") (hA : arn ≠ "") (ht : t ≠ "") (hp : pyInt t = none) :
    lambda_handler ⟨some table, some arn, some t⟩ store pub nowUtc off =
      (.returned thresholdErrorMsg, ⟨0, [], 0⟩) := by
  simp [lambda_handler, truthy, hT, hA, ht, hp]

theorem claim_C9_witness :
    lambda_handler ⟨some "mailbox", some "alerts", some "abc"⟩ (.ok none) .ok 0 0 =
      (.returned thresholdErrorMsg, ⟨0, [], 0⟩) :=
  claim_C9 "mailbox" "alerts" "abc" (.ok none) .ok 0 0
    (by decide) (by decide) (by decide) (by decide)

/-- C7: with valid configuration, a `ClientError` from the `get_item` call is
caught: the handler returns "Error occurred", logs the error once, has made
exactly one read attempt (no retry) and publishes nothing. -/
theorem claim_C7 (table arn t : String) (pub : PublishResult) (nowUtc off : Int)
    (k : Int) (hT : table ≠ "") (hA : arn ≠ "") (ht : t ≠ "") (hp : pyInt t = some k) :
    lambda_handler ⟨some table, some arn, some t⟩ .clientError pub nowUtc off =
      (.returned "Error occurred", ⟨1, [], 1⟩) := by
  simp [lambda_handler, truthy, hT, hA, ht, hp]

theorem claim_C7_witness :
    lambda_handler ⟨some "mailbox", some "alerts", some "2"⟩ .clientError .ok 0 0 =
      (.returned "Error occurred", ⟨1, [], 1⟩) :=
  claim_C7 "mailbox" "alerts" "2" .ok 0 0 2 (by decide) (by decide) (by decide) (by decide)

/-- C6: with valid configuration, when the store read succeeds but there is
no item at key "open", or the item lacks the `timestamp` attribute, the
handler returns "No timestamp found in DynamoDB" and publishes nothing. -/
theorem claim_C6 (table arn t : String) (optItem : Option Item) (pub : PublishResult)
    (nowUtc off : Int) (k : Int)
    (hT : table ≠ "") (hA : arn ≠ "") (ht : t ≠ "") (hp : pyInt t = some k)
    (hitem : optItem = none ∨ optItem = some ⟨none⟩) :
    lambda_handler ⟨some table, some arn, some t⟩ (.ok optItem) pub nowUtc off =
      (.returned "No timestamp found in DynamoDB", ⟨1, [], 0⟩) := by
  rcases hitem with h | h <;> simp [lambda_handler, truthy, hT, hA, ht, hp, h]

theorem claim_C6_witness :
    lambda_handler ⟨some "mailbox", some "alerts", some "2"⟩ (.ok none) .ok 0 0 =
      (.returned "No timestamp found in DynamoDB", ⟨1, [], 0⟩) :=
  claim_C6 "mailbox" "alerts" "2" none .ok 0 0 2
    (by decide) (by decide) (by decide) (by decide) (Or.inl rfl)

/-- C4: with valid configuration and a store item whose `timestamp` value
fails `strptime` parsing, the handler raises an uncaught `ValueError`
(`ValueError` is not `ClientError`): no outcome string is returned and no
notification is published. -/
theorem claim_C4 (table arn t ts : String) (pub : PublishResult) (nowUtc off : Int)
    (k : Int) (hT : table ≠ "") (hA : arn ≠ "") (ht : t ≠ "") (hp : pyInt t = some k)
    (hts : strptime14 ts = none) :
    lambda_handler ⟨some table, some arn, some t⟩ (.ok (some ⟨some ts⟩)) pub nowUtc off =
      (.raisedValueError, ⟨1, [], 0⟩) := by
  simp [lambda_handler, truthy, hT, hA, ht, hp, hts]

theorem claim_C4_witness :
    lambda_handler ⟨some "mailbox", some "alerts", some "2"⟩
        (.ok (some ⟨some "not-a-timestamp"⟩)) .ok 0 0 =
      (.raisedValueError, ⟨1, [], 0⟩) :=
  claim_C4 "mailbox" "alerts" "2" "not-a-timestamp" .ok 0 0 2
    (by decide) (by decide) (by decide) (by decide) (by decide)

/-- C1: with valid configuration, a successful store read, an item with a
parsable timestamp and a working notification channel, the handler publishes
exactly one alert and returns "SNS notification sent" if and only if the
computed elapsed time (now minus the parsed instant) strictly exceeds the
threshold; when the elapsed time equals the threshold exactly, nothing is
published and "Timestamp is within the threshold" is returned. -/
theorem claim_C1 (table arn t ts : String) (dt : Datetime) (k nowUtc off : Int)
    (hT : table ≠ "") (hA : arn ≠ "") (ht : t ≠ "")
    (hk : pyInt t = some k) (hts : strptime14 ts = some dt) :
    (((lambda_handler ⟨some table, some arn, some t⟩ (.ok (some ⟨some ts⟩)) .ok
          nowUtc off).1 = .returned "SNS notification sent" ∧
      (lambda_handler ⟨some table, some arn, some t⟩ (.ok (some ⟨some ts⟩)) .ok
          nowUtc off).2.published =
        [⟨arn, alertBody k, "Mailbox State Alert"⟩]) ↔
      awareSub (datetimeNowTz nowUtc off) ⟨naiveToSec dt, pytzCentralReplaceOffset⟩ >
        timedeltaHours k) ∧
    (awareSub (datetimeNowTz nowUtc off) ⟨naiveToSec dt, pytzCentralReplaceOffset⟩ =
        timedeltaHours k →
      (lambda_handler ⟨some table, some arn, some t⟩ (.ok (some ⟨some ts⟩)) .ok
          nowUtc off).1 = .returned "Timestamp is within the threshold" ∧
      (lambda_handler ⟨some table, some arn, some t⟩ (.ok (some ⟨some ts⟩)) .ok
          nowUtc off).2.published = []) := by
  by_cases hgt : awareSub (datetimeNowTz nowUtc off)
      ⟨naiveToSec dt, pytzCentralReplaceOffset⟩ > timedeltaHours k
  · refine ⟨?_, fun heq => absurd hgt ?_⟩
    · simp [lambda_handler, truthy, hT, hA, ht, hk, hts, hgt]
    · rw [heq]; exact lt_irrefl _
  · constructor
    · simp [lambda_handler, truthy, hT, hA, ht, hk, hts, hgt]
    · intro heq
      simp [lambda_handler, truthy, hT, hA, ht, hk, hts, hgt]

theorem claim_C1_witness :
    (((lambda_handler ⟨some "mailbox", some "alerts", some "2"⟩
          (.ok (some ⟨some "20240115120000"⟩)) .ok
          (naiveToSec ⟨2024, 1, 15, 12, 0, 0⟩ + 28800) (-21600)).1 =
        .returned "SNS notification sent" ∧
      (lambda_handler ⟨some "mailbox", some "alerts", some "2"⟩
          (.ok (some ⟨some "20240115120000"⟩)) .ok
          (naiveToSec ⟨2024, 1, 15, 12, 0, 0⟩ + 28800) (-21600)).2.published =
        [⟨"alerts", alertBody 2, "Mailbox State Alert"⟩]) ↔
      awareSub (datetimeNowTz (naiveToSec ⟨2024, 1, 15, 12, 0, 0⟩ + 28800) (-21600))
          ⟨naiveToSec ⟨2024, 1, 15, 12, 0, 0⟩, pytzCentralReplaceOffset⟩ >
        timedeltaHours 2) ∧
    (awareSub (datetimeNowTz (naiveToSec ⟨2024, 1, 15, 12, 0, 0⟩ + 28800) (-21600))
        ⟨naiveToSec ⟨2024, 1, 15, 12, 0, 0⟩, pytzCentralReplaceOffset⟩ =
        timedeltaHours 2 →
      (lambda_handler ⟨some "mailbox", some "alerts", some "2"⟩
          (.ok (some ⟨some "20240115120000"⟩)) .ok
          (naiveToSec ⟨2024, 1, 15, 12, 0, 0⟩ + 28800) (-21600)).1 =
        .returned "Timestamp is within the threshold" ∧
      (lambda_handler ⟨some "mailbox", some "alerts", some "2"⟩
          (.ok (some ⟨some "20240115120000"⟩)) .ok
          (naiveToSec ⟨2024, 1, 15, 12, 0, 0⟩ + 28800) (-21600)).2.published = []) :=
  claim_C1 "mailbox" "alerts" "2" "20240115120000" ⟨2024, 1, 15, 12, 0, 0⟩ 2
    (naiveToSec ⟨2024, 1, 15, 12, 0, 0⟩ + 28800) (-21600)
    (by decide) (by decide) (by decide) (by decide) (by decide)

/-- C2: the code does not compare against the US/Central civil-time
interpretation of the stored string.  `replace(tzinfo=pytz.timezone(...))`
attaches the pytz zone's default LMT offset (UTC-5:51), not the DST-aware
CST/CDT offset that `datetime.now(...)` carries.  Concrete divergence: the
item holds "20240115120000" (a January instant, CST, UTC offset -6:00) and
`now` is exactly 2 civil hours later, with `THRESHOLD_HOURS = 2`.  The true
civil elapsed time equals the threshold, so under the claim (strict
comparison, C1's boundary) nothing may be published — yet the handler
computes an elapsed time of 7740 s (2 h 9 min) and publishes the alert. -/
theorem claim_C2_code_divergence :
    strptime14 "20240115120000" = some ⟨2024, 1, 15, 12, 0, 0⟩ ∧
    (naiveToSec ⟨2024, 1, 15, 12, 0, 0⟩ + 28800) -
        (naiveToSec ⟨2024, 1, 15, 12, 0, 0⟩ - (-21600)) = timedeltaHours 2 ∧
    awareSub (datetimeNowTz (naiveToSec ⟨2024, 1, 15, 12, 0, 0⟩ + 28800) (-21600))
        ⟨naiveToSec ⟨2024, 1, 15, 12, 0, 0⟩, pytzCentralReplaceOffset⟩ = 7740 ∧
    lambda_handler ⟨some "mailbox", some "alerts", some "2"⟩
        (.ok (some ⟨some "20240115120000"⟩)) .ok
        (naiveToSec ⟨2024, 1, 15, 12, 0, 0⟩ + 28800) (-21600) =
      (.returned "SNS notification sent",
       ⟨1, [⟨"alerts", alertBody 2, "Mailbox State Alert"⟩], 0⟩) := by
  refine ⟨by decide, by decide, by decide, by decide⟩

/-- C5 as stated is false: `sns.publish` sits inside the same
`try ... except ClientError` block as the `get_item` call, so a
service-level `ClientError` raised by the publish is caught and converted to
the returned outcome "Error occurred" — it does not propagate out of the
handler.  Concrete run: valid configuration, successful store read, stale
timestamp, publish raises `ClientError`. -/
theorem claim_C5_counterexample :
    lambda_handler ⟨some "mailbox", some "alerts", some "2"⟩
        (.ok (some ⟨some "20240115120000"⟩)) .clientError
        (naiveToSec ⟨2024, 1, 15, 12, 0, 0⟩ + 100000) (-21600) =
      (.returned "Error occurred", ⟨1, [], 1⟩) := by decide

/-- C5 amended: a service-level `ClientError` from either AWS call —
store read (see C7) or notification publish — is caught, logged and
converted to the returned outcome "Error occurred"; in particular a publish
failure on a stale timestamp yields "Error occurred" with no delivered
message, rather than propagating. -/
theorem claim_C5_amended (table arn t ts : String) (dt : Datetime) (k nowUtc off : Int)
    (hT : table ≠ "") (hA : arn ≠ "") (ht : t ≠ "")
    (hk : pyInt t = some k) (hts : strptime14 ts = some dt)
    (hgt : awareSub (datetimeNowTz nowUtc off)
        ⟨naiveToSec dt, pytzCentralReplaceOffset⟩ > timedeltaHours k) :
    lambda_handler ⟨some table, some arn, some t⟩ (.ok (some ⟨some ts⟩)) .clientError
        nowUtc off = (.returned "Error occurred", ⟨1, [], 1⟩) := by
  simp [lambda_handler, truthy, hT, hA, ht, hk, hts, hgt]

theorem claim_C5_amended_witness :
    lambda_handler ⟨some "mailbox", some "alerts", some "2"⟩
        (.ok (some ⟨some "20240115120000"⟩)) .clientError
        (naiveToSec ⟨2024, 1, 15, 12, 0, 0⟩ + 200000) (-21600) =
      (.returned "Error occurred", ⟨1, [], 1⟩) :=
  claim_C5_amended "mailbox" "alerts" "2" "20240115120000" ⟨2024, 1, 15, 12, 0, 0⟩ 2
    (naiveToSec ⟨2024, 1, 15, 12, 0, 0⟩ + 200000) (-21600)
    (by decide) (by decide) (by decide) (by decide) (by decide) (by decide)

/-- C8 as stated is false: `int("0")` succeeds, so a zero (or negative)
`THRESHOLD_HOURS` is not treated as a configuration error — the handler
proceeds to the store read.  Concrete run with `THRESHOLD_HOURS = "0"`: the
store is contacted (one read) and the outcome is the no-timestamp message,
not a configuration-error outcome. -/
theorem claim_C8_counterexample :
    lambda_handler ⟨some "mailbox", some "alerts", some "0"⟩ (.ok (some ⟨none⟩)) .ok 0 0 =
      (.returned "No timestamp found in DynamoDB", ⟨1, [], 0⟩) := by decide

/-- C8 amended: a present, non-empty `THRESHOLD_HOURS` that fails integer
parsing is a fatal configuration error returned without any external
contact; but every string that `int()` parses — including "0" and negative
values — is accepted, and the handler proceeds to the store read. -/
theorem claim_C8_amended (table arn t : String) (store : GetItemResult)
    (pub : PublishResult) (nowUtc off : Int)
    (hT : table ≠ "") (hA : arn ≠ "") (ht : t ≠ "") :
    (pyInt t = none →
      lambda_handler ⟨some table, some arn, some t⟩ store pub nowUtc off =
        (.returned thresholdErrorMsg, ⟨0, [], 0⟩)) ∧
    (∀ k : Int, pyInt t = some k →
      (lambda_handler ⟨some table, some arn, some t⟩ store pub nowUtc off).2.storeReads = 1) := by
  constructor
  · intro hp
    simp [lambda_handler, truthy, hT, hA, ht, hp]
  · intro k hp
    cases store with
    | clientError => simp [lambda_handler, truthy, hT, hA, ht, hp]
    | ok optItem =>
      cases optItem with
      | none => simp [lambda_handler, truthy, hT, hA, ht, hp]
      | some item =>
        cases hfield : item.timestamp with
        | none => simp [lambda_handler, truthy, hT, hA, ht, hp, hfield]
        | some ts =>
          cases hdt : strptime14 ts with
          | none => simp [lambda_handler, truthy, hT, hA, ht, hp, hfield, hdt]
          | some dt =>
            by_cases hgt : awareSub (datetimeNowTz nowUtc off)
                ⟨naiveToSec dt, pytzCentralReplaceOffset⟩ > timedeltaHours k
            · cases pub <;> simp [lambda_handler, truthy, hT, hA, ht, hp, hfield, hdt, hgt]
            · simp [lambda_handler, truthy, hT, hA, ht, hp, hfield, hdt, hgt]

theorem claim_C8_amended_witness :
    (lambda_handler ⟨some "mailbox", some "alerts", some "0"⟩
        (.ok none) .ok 0 0).2.storeReads = 1 :=
  (claim_C8_amended "mailbox" "alerts" "0" (.ok none) .ok 0 0
    (by decide) (by decide) (by decide)).2 0 (by decide)

end Mailbox
